import Mathlib

/-!
Shallow embedding of the tic-tac-toe board engine (src/state.rs) and
verification of its specification.

The Rust `BoardState` holds a `Vec<TileState>` of length `BOARD_SIZE *
BOARD_SIZE` and the `Player` whose turn is next.  `play` mutates the board
in place and returns `Result`; indexing into the tiles vector panics when
the flat index `x + y * BOARD_SIZE` is out of range.  We model `play` as a
pure function returning an `Outcome` (ok, the two error kinds, or the
panic of an out-of-range `Vec` index) together with the board after the
call, so that "leaves the board unchanged" is directly stateable.
-/

namespace TicTacToe

/-- Rust `enum TileState { X, O, Empty }`. -/
inductive TileState where
  | X
  | O
  | Empty
deriving DecidableEq, Repr, Fintype

/-- Rust `enum Player { X, O }`. -/
inductive Player where
  | X
  | O
deriving DecidableEq, Repr, Fintype

/-- Rust `impl From<Player> for TileState`. -/
def TileState.ofPlayer : Player → TileState
  | Player.X => TileState.X
  | Player.O => TileState.O

/-- Rust `impl From<TileState> for Option<Player>`. -/
def playerOfTile : TileState → Option Player
  | TileState.X => some Player.X
  | TileState.O => some Player.O
  | TileState.Empty => none

/-- Rust `Player::opponent`. -/
def Player.opponent : Player → Player
  | Player.X => Player.O
  | Player.O => Player.X

/-- Rust `pub const BOARD_SIZE: usize = 3`. -/
def BOARD_SIZE : Nat := 3

/-- Rust `struct BoardState { tiles: Vec<TileState>, next: Player }`. -/
structure BoardState where
  tiles : List TileState
  next : Player
deriving DecidableEq, Repr

/-- Rust `BoardState::new`: all tiles empty, X plays first. -/
def BoardState.new : BoardState :=
  { tiles := List.replicate (BOARD_SIZE * BOARD_SIZE) TileState.Empty
    next := Player.X }

/-- Rust `impl Index<(usize, usize)> for BoardState`: reads
`self.tiles[x + y * BOARD_SIZE]`.  A `Vec` index out of range panics,
modeled here as `none`. -/
def BoardState.index (b : BoardState) (p : Nat × Nat) : Option TileState :=
  b.tiles.get? (p.1 + p.2 * BOARD_SIZE)

/-- Total reading of a tile, used by `iter_row`, `iter_col`, `iter_diag`
and rendering.  On boards satisfying the length invariant
`tiles.length = BOARD_SIZE * BOARD_SIZE` every access made by those
functions is in range, so the default is never taken there. -/
def BoardState.idx (b : BoardState) (p : Nat × Nat) : TileState :=
  b.tiles.getD (p.1 + p.2 * BOARD_SIZE) TileState.Empty

/-- The observable result of one call to `play`: `ok` and the two error
kinds of `anyhow::Result`, plus `panic` for the out-of-range `Vec` index
reachable through `play`'s off-by-one bounds check. -/
inductive Outcome where
  | ok
  | outOfBounds
  | cellOccupied
  | panic
deriving DecidableEq, Repr

/-- The outcome of a `play` call together with the board state after the
call (`play` takes `&mut self`; on an error return the board is whatever
the method left behind). -/
structure PlayResult where
  outcome : Outcome
  board : BoardState
deriving DecidableEq, Repr

/-- Rust `BoardState::play`.  The bounds check is the source's
`x > BOARD_SIZE || y > BOARD_SIZE` (strict, an off-by-one: it admits
`x = BOARD_SIZE`).  Then the tile at flat index `x + y * BOARD_SIZE` is
read; an out-of-range read is a Rust panic (`Outcome.panic`); an `Empty`
tile is set to the current player's mark and `next` flips. -/
def BoardState.play (b : BoardState) (p : Nat × Nat) : PlayResult :=
  if p.1 > BOARD_SIZE ∨ p.2 > BOARD_SIZE then
    { outcome := Outcome.outOfBounds, board := b }
  else
    match b.index p with
    | some TileState.Empty =>
        { outcome := Outcome.ok
          board :=
            { tiles := b.tiles.set (p.1 + p.2 * BOARD_SIZE) (TileState.ofPlayer b.next)
              next := b.next.opponent } }
    | some _ => { outcome := Outcome.cellOccupied, board := b }
    | none => { outcome := Outcome.panic, board := b }

/-- Rust `all_eq`: the common value of a nonempty all-equal sequence. -/
def all_eq {T : Type} [DecidableEq T] : List T → Option T
  | [] => none
  | first :: rest => if rest.all (fun item => item == first) then some first else none

/-- Rust `BoardState::iter_row`. -/
def BoardState.iter_row (b : BoardState) (row : Nat) : List TileState :=
  (List.range BOARD_SIZE).map (fun x => b.idx (x, row))

/-- Rust `BoardState::iter_col`. -/
def BoardState.iter_col (b : BoardState) (col : Nat) : List TileState :=
  (List.range BOARD_SIZE).map (fun y => b.idx (col, y))

/-- Rust `BoardState::iter_diag`. -/
def BoardState.iter_diag (b : BoardState) (sinister : Bool) : List TileState :=
  (List.range BOARD_SIZE).map
    (fun i => b.idx ((if sinister then BOARD_SIZE - 1 - i else i), i))

/-- Rust `BoardState::won`: rows, then columns, then the two diagonals,
each reduced by `all_eq` and mapped through `TileState → Option Player`,
taking the first winner found. -/
def BoardState.won (b : BoardState) : Option Player :=
  (((List.range BOARD_SIZE).map (fun row => all_eq (b.iter_row row))
      ++ (List.range BOARD_SIZE).map (fun col => all_eq (b.iter_col col)))
      ++ [false, true].map (fun sinister => all_eq (b.iter_diag sinister))).findSome?
    (fun opt_tile => opt_tile.bind playerOfTile)

/-- Rust `BoardState::drawn`: every tile is non-empty. -/
def BoardState.drawn (b : BoardState) : Bool :=
  b.tiles.all (fun tile => tile != TileState.Empty)

/-- Rust `impl Display for TileState`. -/
def TileState.render : TileState → String
  | TileState.X => "X"
  | TileState.O => "O"
  | TileState.Empty => " "

/-- Rust `impl Display for BoardState`: per row, the tiles with `|`
between adjacent tiles; between adjacent rows, a newline, a separator of
`-` with `+` between, and a newline. -/
def BoardState.render (b : BoardState) : String :=
  String.join ((List.range BOARD_SIZE).map (fun y =>
    String.join ((List.range BOARD_SIZE).map (fun x =>
      (b.idx (x, y)).render ++ if x ≠ BOARD_SIZE - 1 then "|" else ""))
      ++ if y ≠ BOARD_SIZE - 1 then
          "\n"
            ++ String.join ((List.range BOARD_SIZE).map (fun x =>
              "-" ++ if x ≠ BOARD_SIZE - 1 then "+" else ""))
            ++ "\n"
        else ""))

/-! Spec-side definitions, written from the specification's words, to be
compared with the definitions embedded from the source. -/

/-- Spec wording for one line of `won`: "A line is won if all 3 of its
tiles are non-empty and mutually equal"; the winner is the player whose
mark fills the line, and "a line of all-empty tiles is NOT reported as
won". -/
def lineWinner : List TileState → Option Player
  | [a, b, c] =>
      if a ≠ TileState.Empty ∧ a = b ∧ b = c then playerOfTile a else none
  | _ => none

/-- Spec wording for the scan order of `won`: "rows top-to-bottom, then
columns left-to-right, then the primary diagonal (upper-left to
lower-right), then the anti-diagonal (upper-right to lower-left)", on the
row-major grid with origin at the upper left. -/
def specLines (b : BoardState) : List (List TileState) :=
  [ [b.idx (0, 0), b.idx (1, 0), b.idx (2, 0)]
  , [b.idx (0, 1), b.idx (1, 1), b.idx (2, 1)]
  , [b.idx (0, 2), b.idx (1, 2), b.idx (2, 2)]
  , [b.idx (0, 0), b.idx (0, 1), b.idx (0, 2)]
  , [b.idx (1, 0), b.idx (1, 1), b.idx (1, 2)]
  , [b.idx (2, 0), b.idx (2, 1), b.idx (2, 2)]
  , [b.idx (0, 0), b.idx (1, 1), b.idx (2, 2)]
  , [b.idx (2, 0), b.idx (1, 1), b.idx (0, 2)] ]

/-- Spec wording for `won`: "Returns the first winning player found" in
the scan order of `specLines`, "returns no-winner if no line is won". -/
def wonSpec (b : BoardState) : Option Player :=
  (specLines b).findSome? lineWinner

/-- Spec wording for the rendering contract: "rows joined by
`|`-separated tiles; a separator line `-+-+-` between adjacent rows; no
leading/trailing separator". -/
def renderSpec (b : BoardState) : String :=
  String.intercalate ("\n" ++ "-+-+-" ++ "\n")
    ((List.range BOARD_SIZE).map (fun y =>
      String.intercalate "|"
        ((List.range BOARD_SIZE).map (fun x => (b.idx (x, y)).render))))

/-! Helper lemmas shared by several claim theorems. -/

/-- On coordinates beyond the source's strict bounds check, `play`
returns the out-of-bounds error and the board untouched. -/
theorem play_oob (b : BoardState) (x y : Nat) (h : x > BOARD_SIZE ∨ y > BOARD_SIZE) :
    b.play (x, y) = { outcome := Outcome.outOfBounds, board := b } := by
  unfold BoardState.play
  rw [if_pos h]

/-- C8: `opponent()` is total and deterministic on `Player` (it is a Lean
function), maps each variant to the other, and is an involution. -/
theorem opponent_swaps_and_is_involutive :
    Player.X.opponent = Player.O ∧ Player.O.opponent = Player.X ∧
      ∀ p : Player, p.opponent.opponent = p := by
  refine ⟨rfl, rfl, ?_⟩
  intro p
  cases p <;> rfl

/-- C9: a coordinate pair accepted by `play`'s bounds check can have flat
index `x + y * BOARD_SIZE` beyond the 9-element tiles vector, so the
out-of-range indexing branch (a Rust panic) is reachable through `play`:
witness (0, 3), whose flat index is 9. -/
theorem panic_reachable_through_play :
    ∃ x y : Nat, ¬(x > BOARD_SIZE ∨ y > BOARD_SIZE)
      ∧ BoardState.new.tiles.length ≤ x + y * BOARD_SIZE
      ∧ (BoardState.new.play (x, y)).outcome = Outcome.panic :=
  ⟨0, 3, by decide, by decide, by decide⟩

/-- C3: on coordinates with `x > BOARD_SIZE` or `y > BOARD_SIZE`, `play`
signals `OutOfBounds` and leaves every tile and the next player
unchanged. -/
theorem play_out_of_bounds_unchanged (b : BoardState) (x y : Nat)
    (h : x > BOARD_SIZE ∨ y > BOARD_SIZE) :
    (b.play (x, y)).outcome = Outcome.outOfBounds ∧ (b.play (x, y)).board = b := by
  rw [play_oob b x y h]
  exact ⟨rfl, rfl⟩

/-- Witness for C3 at (4, 0) on the fresh board. -/
theorem play_out_of_bounds_unchanged_witness :
    (4 > BOARD_SIZE ∨ 0 > BOARD_SIZE)
      ∧ (BoardState.new.play (4, 0)).outcome = Outcome.outOfBounds
      ∧ (BoardState.new.play (4, 0)).board = BoardState.new :=
  ⟨by decide, play_out_of_bounds_unchanged BoardState.new 4 0 (by decide)⟩

/-- C2 counterexample: (3, 0) has `x = BOARD_SIZE`, so the claimed
`x ≥ BOARD_SIZE → OutOfBounds` fails (the source checks `>`), and at
(0, 3) the underlying tile storage is accessed out of range, a panic. -/
theorem bounds_check_not_ge_counterexample :
    (BoardState.new.play (3, 0)).outcome ≠ Outcome.outOfBounds
      ∧ (BoardState.new.play (0, 3)).outcome = Outcome.panic := by
  exact ⟨by decide, by decide⟩

/-- C2 amended: `play` fails with `OutOfBounds` exactly on the source's
strict condition `x > BOARD_SIZE ∨ y > BOARD_SIZE` (leaving the board
unchanged); the check does not guard `x = BOARD_SIZE` or
`y = BOARD_SIZE`, so the underlying tile storage can be accessed out of
range through `play` (a panic, e.g. at (0, 3)). -/
theorem bounds_check_strict :
    (∀ (b : BoardState) (x y : Nat), x > BOARD_SIZE ∨ y > BOARD_SIZE →
        b.play (x, y) = { outcome := Outcome.outOfBounds, board := b })
      ∧ (BoardState.new.play (3, 0)).outcome = Outcome.ok
      ∧ (BoardState.new.play (0, 3)).outcome = Outcome.panic :=
  ⟨play_oob, by decide, by decide⟩

/-- Witness for C2's amended theorem at (5, 1) on the fresh board. -/
theorem bounds_check_strict_witness :
    (5 > BOARD_SIZE ∨ 1 > BOARD_SIZE)
      ∧ BoardState.new.play (5, 1)
          = { outcome := Outcome.outOfBounds, board := BoardState.new } :=
  ⟨by decide, bounds_check_strict.1 BoardState.new 5 1 (by decide)⟩

/-- C1: whenever `play (x, y)` succeeds, the tile the call addresses
(flat index `x + y * BOARD_SIZE`, the source's `Index` impl) was empty
before the call and now holds the current player's mark (which is not
`Empty`, so exactly that tile's state changes), every other tile is
unchanged, `next` flips to the prior next player's opponent, and there
are no other side effects (the resulting board is exactly the old tiles
with that one update and the flipped `next`). -/
theorem play_ok_spec (b : BoardState) (x y : Nat)
    (h : (b.play (x, y)).outcome = Outcome.ok) :
    b.index (x, y) = some TileState.Empty
      ∧ (b.play (x, y)).board.index (x, y) = some (TileState.ofPlayer b.next)
      ∧ TileState.ofPlayer b.next ≠ TileState.Empty
      ∧ (b.play (x, y)).board.next = b.next.opponent
      ∧ (b.play (x, y)).board.tiles
          = b.tiles.set (x + y * BOARD_SIZE) (TileState.ofPlayer b.next)
      ∧ ∀ i : Nat, i ≠ x + y * BOARD_SIZE →
          (b.play (x, y)).board.tiles.get? i = b.tiles.get? i := by
  unfold BoardState.play at h ⊢
  by_cases hb : x > BOARD_SIZE ∨ y > BOARD_SIZE
  · rw [if_pos hb] at h
    simp at h
  · rw [if_neg hb] at h ⊢
    cases hidx : b.index (x, y) with
    | none =>
        rw [hidx] at h
        simp at h
    | some t =>
        cases t with
        | X =>
            rw [hidx] at h
            simp at h
        | O =>
            rw [hidx] at h
            simp at h
        | Empty =>
            have hlt : x + y * BOARD_SIZE < b.tiles.length :=
              (List.get?_eq_some.mp hidx).1
            refine ⟨rfl, ?_, ?_, rfl, rfl, ?_⟩
            · show (b.tiles.set (x + y * BOARD_SIZE) (TileState.ofPlayer b.next)).get?
                  (x + y * BOARD_SIZE) = some (TileState.ofPlayer b.next)
              rw [List.get?_set_eq_of_lt _ hlt]
            · cases b.next <;> decide
            · intro i hi
              show (b.tiles.set (x + y * BOARD_SIZE) (TileState.ofPlayer b.next)).get? i
                  = b.tiles.get? i
              exact List.get?_set_ne _ b.tiles (fun he => hi he.symm)

/-- Witness for C1: playing (0, 0) on the fresh board succeeds. -/
theorem play_ok_spec_witness :
    (BoardState.new.play (0, 0)).outcome = Outcome.ok
      ∧ (BoardState.new.index (0, 0) = some TileState.Empty
          ∧ (BoardState.new.play (0, 0)).board.index (0, 0)
              = some (TileState.ofPlayer BoardState.new.next)
          ∧ TileState.ofPlayer BoardState.new.next ≠ TileState.Empty
          ∧ (BoardState.new.play (0, 0)).board.next = BoardState.new.next.opponent
          ∧ (BoardState.new.play (0, 0)).board.tiles
              = BoardState.new.tiles.set (0 + 0 * BOARD_SIZE)
                  (TileState.ofPlayer BoardState.new.next)
          ∧ ∀ i : Nat, i ≠ 0 + 0 * BOARD_SIZE →
              (BoardState.new.play (0, 0)).board.tiles.get? i
                  = BoardState.new.tiles.get? i) :=
  ⟨by decide, play_ok_spec BoardState.new 0 0 (by decide)⟩

/-- C4: on an in-range coordinate whose tile is already occupied, `play`
signals `CellOccupied` and leaves every tile and the next player
unchanged. -/
theorem play_cell_occupied_unchanged (b : BoardState) (x y : Nat)
    (hx : x < BOARD_SIZE) (hy : y < BOARD_SIZE) (t : TileState)
    (ht : b.index (x, y) = some t) (hne : t ≠ TileState.Empty) :
    (b.play (x, y)).outcome = Outcome.cellOccupied ∧ (b.play (x, y)).board = b := by
  have hx3 : x < 3 := hx
  have hy3 : y < 3 := hy
  have hb : ¬(x > BOARD_SIZE ∨ y > BOARD_SIZE) := by
    show ¬(x > 3 ∨ y > 3)
    omega
  unfold BoardState.play
  rw [if_neg hb, ht]
  cases t with
  | Empty => exact absurd rfl hne
  | X => exact ⟨rfl, rfl⟩
  | O => exact ⟨rfl, rfl⟩

/-- Witness for C4: the center is occupied after the fresh board plays
(1, 1), so playing it again is rejected. -/
theorem play_cell_occupied_unchanged_witness :
    1 < BOARD_SIZE
      ∧ ((BoardState.new.play (1, 1)).board.index (1, 1) = some TileState.X
          ∧ TileState.X ≠ TileState.Empty)
      ∧ ((BoardState.new.play (1, 1)).board.play (1, 1)).outcome = Outcome.cellOccupied
      ∧ ((BoardState.new.play (1, 1)).board.play (1, 1)).board
          = (BoardState.new.play (1, 1)).board :=
  ⟨by decide, ⟨by decide, by decide⟩,
    play_cell_occupied_unchanged (BoardState.new.play (1, 1)).board 1 1
      (by decide) (by decide) TileState.X (by decide) (by decide)⟩

/-- On a line of exactly three tiles, the source's reduction
(`all_eq` then the `TileState → Option Player` conversion) agrees with
the spec's per-line winner condition. -/
theorem line_eq (a b c : TileState) :
    (all_eq [a, b, c]).bind playerOfTile = lineWinner [a, b, c] := by
  cases a <;> cases b <;> cases c <;> decide

/-- `findSome?` only depends on the values of the function on the list. -/
theorem findSome?_congr {α β : Type} {f g : α → Option β} :
    ∀ l : List α, (∀ a ∈ l, f a = g a) → l.findSome? f = l.findSome? g := by
  intro l
  induction l with
  | nil => intro _; rfl
  | cons a t ih =>
      intro h
      have ha : f a = g a := h a (List.mem_cons_self a t)
      have ht := ih fun z hz => h z (List.mem_cons_of_mem a hz)
      rw [List.findSome?_cons, List.findSome?_cons, ha, ht]

/-- A list of length 9 is a literal nine-element list. -/
theorem length_nine {α : Type} (l : List α) (h : l.length = 9) :
    ∃ a b c d e f g h i, l = [a, b, c, d, e, f, g, h, i] := by
  rcases l with _ | ⟨a, l⟩; · simp at h
  rcases l with _ | ⟨b, l⟩; · simp at h
  rcases l with _ | ⟨c, l⟩; · simp at h
  rcases l with _ | ⟨d, l⟩; · simp at h
  rcases l with _ | ⟨e, l⟩; · simp at h
  rcases l with _ | ⟨f, l⟩; · simp at h
  rcases l with _ | ⟨g, l⟩; · simp at h
  rcases l with _ | ⟨hh, l⟩; · simp at h
  rcases l with _ | ⟨i, l⟩; · simp at h
  rcases l with _ | ⟨j, l⟩
  · exact ⟨a, b, c, d, e, f, g, hh, i, rfl⟩
  · simp at h

/-- C5: `won` evaluates the 8 lines in the order rows top-to-bottom,
columns left-to-right, primary diagonal, anti-diagonal, reporting the
first line whose 3 tiles are non-empty and mutually equal (an all-empty
line is collapsed to no-winner by the `TileState → Option Player` map),
and no-winner when no line is won; it is a pure total Lean function. -/
theorem won_eq_wonSpec (b : BoardState) (h : b.tiles.length = 9) :
    b.won = wonSpec b := by
  obtain ⟨tiles, nx⟩ := b
  obtain ⟨t0, t1, t2, t3, t4, t5, t6, t7, t8, rfl⟩ := length_nine tiles h
  show (List.map all_eq
      [ [t0, t1, t2], [t3, t4, t5], [t6, t7, t8]
      , [t0, t3, t6], [t1, t4, t7], [t2, t5, t8]
      , [t0, t4, t8], [t2, t4, t6] ]).findSome?
      (fun opt_tile => opt_tile.bind playerOfTile)
    = List.findSome? lineWinner
      [ [t0, t1, t2], [t3, t4, t5], [t6, t7, t8]
      , [t0, t3, t6], [t1, t4, t7], [t2, t5, t8]
      , [t0, t4, t8], [t2, t4, t6] ]
  rw [List.findSome?_map]
  apply findSome?_congr
  intro a ha
  simp only [List.mem_cons, List.not_mem_nil, or_false] at ha
  rcases ha with rfl | rfl | rfl | rfl | rfl | rfl | rfl | rfl
  all_goals exact line_eq _ _ _

/-- Witness for C5 on the winning board of the source's own test:
column 1 aside, the primary diagonal is all X. -/
theorem won_eq_wonSpec_witness :
    (⟨[TileState.X, TileState.O, TileState.X,
       TileState.O, TileState.X, TileState.O,
       TileState.X, TileState.Empty, TileState.Empty], Player.O⟩
        : BoardState).tiles.length = 9
      ∧ (⟨[TileState.X, TileState.O, TileState.X,
           TileState.O, TileState.X, TileState.O,
           TileState.X, TileState.Empty, TileState.Empty], Player.O⟩
            : BoardState).won
          = wonSpec ⟨[TileState.X, TileState.O, TileState.X,
                      TileState.O, TileState.X, TileState.O,
                      TileState.X, TileState.Empty, TileState.Empty], Player.O⟩ :=
  ⟨by decide, won_eq_wonSpec _ (by decide)⟩

/-- C6: `drawn` is true exactly when every tile of the board is
non-empty; the definition never consults `won`, so the equivalence holds
on every board, winner present or not. -/
theorem drawn_iff_no_empty_tile (b : BoardState) :
    b.drawn = true ↔ ∀ t ∈ b.tiles, t ≠ TileState.Empty := by
  simp [BoardState.drawn, List.all_eq_true]

/-- `String.join` on a three-element list is the two appends. -/
theorem sj3 (a b c : String) : String.join [a, b, c] = a ++ b ++ c := rfl

/-- `String.intercalate` on a three-element list. -/
theorem si3 (s a b c : String) :
    String.intercalate s [a, b, c] = a ++ s ++ b ++ s ++ c := rfl

/-- C7: the rendered text is the 3 rows in order, each row its 3 tile
characters joined by a `|` separator, with the line `-+-+-` between
adjacent rows and no leading or trailing separator; in particular the
board that is empty except for the mark played at (1, 1) renders as the
five lines ` | | `, `-+-+-`, ` |X| `, `-+-+-`, ` | | `. -/
theorem render_matches_display_contract :
    (∀ b : BoardState, b.render = renderSpec b)
      ∧ (BoardState.new.play (1, 1)).board.render
          = " | | \n-+-+-\n |X| \n-+-+-\n | | " := by
  constructor
  · intro b
    show String.join
        [ String.join
            [ (b.idx (0, 0)).render ++ "|", (b.idx (1, 0)).render ++ "|",
              (b.idx (2, 0)).render ++ "" ]
            ++ ("\n" ++ String.join ["-" ++ "+", "-" ++ "+", "-" ++ ""] ++ "\n")
        , String.join
            [ (b.idx (0, 1)).render ++ "|", (b.idx (1, 1)).render ++ "|",
              (b.idx (2, 1)).render ++ "" ]
            ++ ("\n" ++ String.join ["-" ++ "+", "-" ++ "+", "-" ++ ""] ++ "\n")
        , String.join
            [ (b.idx (0, 2)).render ++ "|", (b.idx (1, 2)).render ++ "|",
              (b.idx (2, 2)).render ++ "" ]
            ++ "" ]
      = String.intercalate ("\n" ++ "-+-+-" ++ "\n")
          [ String.intercalate "|"
              [(b.idx (0, 0)).render, (b.idx (1, 0)).render, (b.idx (2, 0)).render]
          , String.intercalate "|"
              [(b.idx (0, 1)).render, (b.idx (1, 1)).render, (b.idx (2, 1)).render]
          , String.intercalate "|"
              [(b.idx (0, 2)).render, (b.idx (1, 2)).render, (b.idx (2, 2)).render] ]
    simp only [sj3, si3, String.append_empty, String.append_assoc]
    rfl
  · rfl

/-- C10: on coordinates passing the strict bounds check whose flat index
`x + y * BOARD_SIZE` is inside the tiles vector, `play` acts on the tile
at that flat index (it succeeds exactly when that flat tile is empty, and
on success updates exactly that flat slot); in particular, on a fresh
board `play (3, 0)` passes the check, succeeds, places X at flat index 3
(`3 + 0 * BOARD_SIZE = 0 + 1 * BOARD_SIZE`, i.e. cell (0, 1), not the
requested cell), and flips `next` to O. -/
theorem play_uses_flat_index :
    (∀ (b : BoardState) (x y : Nat), ¬(x > BOARD_SIZE ∨ y > BOARD_SIZE) →
        ∀ hlt : x + y * BOARD_SIZE < b.tiles.length,
          ((b.play (x, y)).outcome = Outcome.ok
              ↔ b.tiles.get ⟨x + y * BOARD_SIZE, hlt⟩ = TileState.Empty)
            ∧ (b.tiles.get ⟨x + y * BOARD_SIZE, hlt⟩ = TileState.Empty →
                (b.play (x, y)).board
                  = { tiles := b.tiles.set (x + y * BOARD_SIZE) (TileState.ofPlayer b.next)
                      next := b.next.opponent }))
      ∧ BoardState.new.play (3, 0)
          = { outcome := Outcome.ok
              board := { tiles := [TileState.Empty, TileState.Empty, TileState.Empty,
                                   TileState.X, TileState.Empty, TileState.Empty,
                                   TileState.Empty, TileState.Empty, TileState.Empty]
                         next := Player.O } }
      ∧ 3 + 0 * BOARD_SIZE = 0 + 1 * BOARD_SIZE
      ∧ (BoardState.new.play (3, 0)).board.idx (0, 1) = TileState.X
      ∧ (BoardState.new.play (3, 0)).board.next = Player.O := by
  refine ⟨?_, by decide, by decide, by decide, by decide⟩
  intro b x y hb hlt
  have hsome : b.index (x, y) = some (b.tiles.get ⟨x + y * BOARD_SIZE, hlt⟩) :=
    List.get?_eq_get hlt
  unfold BoardState.play
  rw [if_neg hb, hsome]
  cases hg : b.tiles.get ⟨x + y * BOARD_SIZE, hlt⟩ with
  | Empty => exact ⟨by simp, fun _ => rfl⟩
  | X => exact ⟨by simp, fun hc => TileState.noConfusion hc⟩
  | O => exact ⟨by simp, fun hc => TileState.noConfusion hc⟩

/-- Witness for C10's general part at (1, 0) on the fresh board. -/
theorem play_uses_flat_index_witness :
    ¬(1 > BOARD_SIZE ∨ 0 > BOARD_SIZE)
      ∧ (((BoardState.new.play (1, 0)).outcome = Outcome.ok
            ↔ BoardState.new.tiles.get ⟨1 + 0 * BOARD_SIZE, by decide⟩ = TileState.Empty)
          ∧ (BoardState.new.tiles.get ⟨1 + 0 * BOARD_SIZE, by decide⟩ = TileState.Empty →
              (BoardState.new.play (1, 0)).board
                = { tiles := BoardState.new.tiles.set (1 + 0 * BOARD_SIZE)
                      (TileState.ofPlayer BoardState.new.next)
                    next := BoardState.new.next.opponent })) :=
  ⟨by decide, play_uses_flat_index.1 BoardState.new 1 0 (by decide) (by decide)⟩

/-- Witness for C8 at X. -/
theorem opponent_swaps_and_is_involutive_witness :
    Player.X.opponent.opponent = Player.X :=
  opponent_swaps_and_is_involutive.2.2 Player.X

/-- Witness for C6 on the fresh board. -/
theorem drawn_iff_no_empty_tile_witness :
    BoardState.new.drawn = true ↔ ∀ t ∈ BoardState.new.tiles, t ≠ TileState.Empty :=
  drawn_iff_no_empty_tile BoardState.new

/-- Witness for C7's general part on the fresh board. -/
theorem render_matches_display_contract_witness :
    BoardState.new.render = renderSpec BoardState.new :=
  render_matches_display_contract.1 BoardState.new

end TicTacToe
